import Mathlib

/-!
Verification of the `ragas_mcp` evaluation services.

A shallow embedding, in Lean 4, of the coordination and configuration logic of
the `ragas_mcp` repository: the metrics-service locator and workflow
orchestrator of `mcp_workflow_server/server.py`, the metric tool endpoints of
`mcp_metric_server/server.py` together with their LLM/embedding helpers from
`mcp_metric_server/my_llms.py`, and the provider resolver of `src/my_llms.py`.

Python strings are embedded as `String`, Python numbers that matter here as
`ℚ`/`Int`, the filesystem and the process environment as functions
`String → Option String` (`none` = file/variable absent), and raising an
exception as `Except.error`/`Option.none`.  `warnings.warn` / `log_warning`
calls are made explicit as a list of emitted warning messages.  Core `String`
operations are re-implemented on `List Char` so that every definition reduces
inside the kernel.
-/

namespace RagasMcp

/-! ## Python string primitives -/

/-- Python truthiness of `os.getenv` results: `None` and the empty string are
falsy, every other string is truthy.  `pyTruthy e = some s` exactly when the
value is present and non-empty. -/
def pyTruthy : Option String → Option String
  | none => none
  | some s => if s = "" then none else some s

/-- Whether `pat` is a prefix of the character list `l`. -/
def listStartsWith : List Char → List Char → Bool
  | [], _ => true
  | _ :: _, [] => false
  | p :: ps, c :: cs => p == c && listStartsWith ps cs

/-- Left-to-right, non-overlapping replacement of every occurrence of `pat`
by `rep`, on character lists; the semantics of Python's `str.replace` for a
non-empty pattern. -/
def pyReplaceAux (pat rep : List Char) : List Char → List Char
  | [] => []
  | c :: cs =>
    if pat.length ≠ 0 ∧ listStartsWith pat (c :: cs) then
      rep ++ pyReplaceAux pat rep (List.drop (pat.length - 1) cs)
    else
      c :: pyReplaceAux pat rep cs
termination_by l => l.length
decreasing_by
  · simp only [List.length_drop, List.length_cons]
    omega
  · simp only [List.length_cons]
    omega

/-- Python `s.replace(pat, rep)` (all occurrences, left to right). -/
def pyReplace (s pat rep : String) : String :=
  ⟨pyReplaceAux pat.data rep.data s.data⟩

/-- Python `s.upper()` (ASCII contents suffice here). -/
def pyUpper (s : String) : String :=
  ⟨s.data.map Char.toUpper⟩

/-- Python `s.lower()` (ASCII contents suffice here). -/
def pyLower (s : String) : String :=
  ⟨s.data.map Char.toLower⟩

/-- Python's whitespace set for `str.strip()`. -/
def isPySpace (c : Char) : Bool :=
  c == ' ' || c == '\t' || c == '\n' || c == '\x0b' || c == '\x0c' || c == '\r'

/-- Python `s.strip()`: remove leading and trailing whitespace. -/
def pyStrip (s : String) : String :=
  ⟨((s.data.dropWhile isPySpace).reverse.dropWhile isPySpace).reverse⟩

/-- Whether `sub` occurs as a contiguous sublist of the second list. -/
def listContainsSub (sub : List Char) : List Char → Bool
  | [] => sub.isEmpty
  | c :: cs => listStartsWith sub (c :: cs) || listContainsSub sub cs

/-- Python `sub in s`: substring containment (used as `"gpt" in llm_ident`). -/
def pyContains (s sub : String) : Bool :=
  listContainsSub sub.data s.data

/-! Metrics Service Locator (`mcp_workflow_server/server.py`,
`find_working_mcp_url`).

The network is abstracted as `probe : String → Option Nat`: the status code
returned by `requests.get` on the given address, or `none` when the request
raises. -/

/-- The address actually probed for a candidate `url`:
`url.replace("8000/mcp", "8000")`. -/
def probeAddress (url : String) : String :=
  pyReplace url "8000/mcp" "8000"

/-- Embedding of `find_working_mcp_url(urls)`: walk the candidates in order; a candidate
whose probe raises is skipped, one whose status code is `< 500` is returned,
one with status `≥ 500` is skipped; exhausting the list raises `RuntimeError`
(embedded as `none`). -/
def find_working_mcp_url (probe : String → Option Nat) : List String → Option String
  | [] => none
  | url :: rest =>
    match probe (probeAddress url) with
    | none => find_working_mcp_url probe rest
    | some code =>
      if code < 500 then some url else find_working_mcp_url probe rest

/-- A candidate counts as alive when its probed address answers with a status
code below 500. -/
def alive (probe : String → Option Nat) (url : String) : Bool :=
  match probe (probeAddress url) with
  | none => false
  | some code => code < 500

/-- The probe address the specification's words describe: the URL with the
RPC path suffix `/mcp` removed. -/
def specProbeAddress (url : String) : String :=
  if listStartsWith "/mcp".data.reverse url.data.reverse then
    ⟨url.data.take (url.data.length - 4)⟩
  else url

/-- Aliveness according to the specification's description of the probe. -/
def specAlive (probe : String → Option Nat) (url : String) : Bool :=
  match probe (specProbeAddress url) with
  | none => false
  | some code => code < 500

/-! Workflow Orchestrator (`mcp_workflow_server/server.py`,
`evaluate_question_answer_with_context_workflow`). -/

/-- A Python value appearing in a sub-tool argument mapping: the request
fields are strings and `strictness` is the integer `3`. -/
inductive PyVal where
  | str (s : String)
  | int (n : Int)
deriving DecidableEq

/-- One Evaluation Request: the seven string parameters of
`evaluate_question_answer_with_context_workflow`. -/
structure EvalRequest where
  user_input : String
  response : String
  reference_answer : String
  retrieved_contexts : String
  eval_framework : String
  llm : String
  embedding_model : String

/-- The `jobs` list built by the workflow tool: five `(tool_name, args)`
pairs, transcribed from the source literal. -/
def jobs (r : EvalRequest) : List (String × List (String × PyVal)) :=
  [ ("calculate_faithfulness",
      [ ("user_input", .str r.user_input),
        ("response", .str r.response),
        ("retrieved_contexts", .str r.retrieved_contexts),
        ("eval_framework", .str r.eval_framework),
        ("llm", .str r.llm) ]),
    ("calculate_answer_relevancy",
      [ ("user_input", .str r.user_input),
        ("response", .str r.response),
        ("eval_framework", .str r.eval_framework),
        ("llm", .str r.llm),
        ("embedding_model", .str r.embedding_model),
        ("strictness", .int 3) ]),
    ("calculate_context_precision",
      [ ("user_input", .str r.user_input),
        ("response", .str r.response),
        ("retrieved_contexts", .str r.retrieved_contexts),
        ("eval_framework", .str r.eval_framework),
        ("llm", .str r.llm) ]),
    ("calculate_context_recall",
      [ ("user_input", .str r.user_input),
        ("retrieved_contexts", .str r.retrieved_contexts),
        ("reference_answer", .str r.reference_answer),
        ("eval_framework", .str r.eval_framework),
        ("llm", .str r.llm) ]),
    ("calculate_answer_correctness",
      [ ("user_input", .str r.user_input),
        ("response", .str r.response),
        ("reference_answer", .str r.reference_answer),
        ("eval_framework", .str r.eval_framework),
        ("llm", .str r.llm),
        ("embedding_model", .str r.embedding_model) ]) ]

/-- Embedding of `run_jobs`: one task per job in order
(`tasks = [call_mcp(tool, args) for tool, args in jobs]`), results gathered in
task order (`asyncio.gather` preserves order), then the dictionary
`{name: result for (name, _), result in zip(jobs, results)}`, embedded as an
association list keyed by tool name.  The remote call is abstracted as a pure
function `call`. -/
def runJobs {α : Type} (call : String → List (String × PyVal) → α)
    (r : EvalRequest) : List (String × α) :=
  let tasks := (jobs r).map (fun j => call j.1 j.2)
  List.zip ((jobs r).map Prod.fst) tasks

/-! Rounding.  Python's built-in `round(x, 4)` rounds to four decimal digits,
ties to even.  Scores are embedded as rationals. -/

/-- Round a rational to the nearest integer, ties to the even integer
(the rounding mode of Python's built-in `round`). -/
def roundHalfEven (x : ℚ) : ℤ :=
  let f := ⌊x⌋
  let r := x - f
  if r < 1/2 then f
  else if 1/2 < r then f + 1
  else if f % 2 = 0 then f else f + 1

/-- Python `round(x, 4)`. -/
def round4 (x : ℚ) : ℚ :=
  (roundHalfEven (x * 10000) : ℚ) / 10000

/-- Modelled from the spec: the numeric scoring functions of
`ragas_singleturn` (`score_faithfulness`, `score_answer_relevance`,
`score_context_precision`, `score_context_recall`,
`score_answer_correctness`) are not among the repository's source files; the
spec delegates them to an external evaluation library and promises a scalar
score between `0.0` and `1.0`.  They are kept as function parameters, and
this predicate models the promised range of their values. -/
abbrev SpecScore (q : ℚ) : Prop := 0 ≤ q ∧ q ≤ 1

/-! Metric Tool Endpoints (`mcp_metric_server/server.py`) and their helpers
(`mcp_metric_server/my_llms.py`).

Each endpoint is a function of the environment, of the scoring function it
delegates to, and of its request fields; it returns the list of warnings it
emitted together with either the score or the raised error.  The scoring
functions live in `ragas_singleturn`, which delegates to the external `ragas`
evaluation library; they are kept as parameters. -/

namespace MetricServer

/-- The single supported evaluation framework selector. -/
def SUPPORTED_EVAL_FRAMEWORKS : List String := ["ragas"]

/-- The LLM client constructed by `get_llm`: a `ChatOpenAI` with the
identifier as model name, temperature `0.0` and `max_tokens=1024`. -/
structure ChatOpenAI where
  model : String
  temperature : ℚ
  max_tokens : Nat
deriving DecidableEq

/-- The embedding client constructed by `get_embedding_model`. -/
structure OpenAIEmbeddings where
  model : String
deriving DecidableEq

/-- Error message raised when `OPENAI_API_KEY` is missing or empty. -/
def missingKeyMsg : String :=
  "OPENAI_API_KEY is not set in the environment. Please set it in your .env file or environment variables."

/-- Embedding of `my_llms.get_llm`: require a truthy `OPENAI_API_KEY`, accept
any identifier containing `"gpt"`, reject the rest. -/
def get_llm (env : String → Option String) (llm_ident : String) :
    Except String ChatOpenAI :=
  if (pyTruthy (env "OPENAI_API_KEY")).isNone then
    .error missingKeyMsg
  else if pyContains llm_ident "gpt" then
    .ok ⟨llm_ident, 0, 1024⟩
  else
    .error ("LLM identifier '" ++ llm_ident ++ "' is not recognized.")

/-- The warning emitted for an unsupported embedding model.  The source
interpolates `model_name` into the message after already reassigning it to
the default, so the message is a fixed string. -/
def embeddingDefaultWarning : String :=
  "Unsupported embedding model 'text-embedding-3-small'. Defaulting to 'text-embedding-3-small'."

/-- Embedding of `my_llms.get_embedding_model`: require a truthy
`OPENAI_API_KEY`; any model name other than `text-embedding-3-small` is
replaced by that default with a warning. -/
def get_embedding_model (env : String → Option String) (model_name : String) :
    List String × Except String OpenAIEmbeddings :=
  if (pyTruthy (env "OPENAI_API_KEY")).isNone then
    ([], .error missingKeyMsg)
  else if model_name ≠ "text-embedding-3-small" then
    ([embeddingDefaultWarning], .ok ⟨"text-embedding-3-small"⟩)
  else
    ([], .ok ⟨model_name⟩)

/-- The warning emitted for an unsupported evaluation framework. -/
def frameworkWarning (eval_framework : String) : String :=
  "Unsupported evaluation framework: " ++ eval_framework ++
    ". Supported frameworks: ['ragas']. Defaulting to ragas"

/-- The warning list produced by the framework check shared by all five
endpoints. -/
def frameworkCheck (eval_framework : String) : List String :=
  if eval_framework ∉ SUPPORTED_EVAL_FRAMEWORKS then
    [frameworkWarning eval_framework]
  else []

/-- Embedding of the `calculate_faithfulness` tool. -/
def calculate_faithfulness (env : String → Option String)
    (score_faithfulness : String → String → String → ChatOpenAI → ℚ)
    (user_input response context eval_framework llm : String) :
    List String × Except String ℚ :=
  let warns := frameworkCheck eval_framework
  match get_llm env llm with
  | .error e => (warns, .error e)
  | .ok llm_obj =>
      (warns, .ok (round4 (score_faithfulness user_input response context llm_obj)))

/-- Embedding of the `calculate_answer_relevancy` tool (`strictness`
defaults to `3` at the tool boundary). -/
def calculate_answer_relevancy (env : String → Option String)
    (score_answer_relevance : String → String → ChatOpenAI → OpenAIEmbeddings → Int → ℚ)
    (user_input response eval_framework llm embedding_model : String)
    (strictness : Int) : List String × Except String ℚ :=
  let warns := frameworkCheck eval_framework
  match get_llm env llm with
  | .error e => (warns, .error e)
  | .ok llm_obj =>
      match get_embedding_model env embedding_model with
      | (w, .error e) => (warns ++ w, .error e)
      | (w, .ok embedding_obj) =>
          (warns ++ w,
            .ok (round4 (score_answer_relevance user_input response llm_obj embedding_obj strictness)))

/-- Embedding of the `calculate_context_precision` tool. -/
def calculate_context_precision (env : String → Option String)
    (score_context_precision : String → String → String → ChatOpenAI → ℚ)
    (user_input response retrieved_contexts eval_framework llm : String) :
    List String × Except String ℚ :=
  let warns := frameworkCheck eval_framework
  match get_llm env llm with
  | .error e => (warns, .error e)
  | .ok llm_obj =>
      (warns, .ok (round4 (score_context_precision user_input response retrieved_contexts llm_obj)))

/-- Embedding of the `calculate_context_recall` tool. -/
def calculate_context_recall (env : String → Option String)
    (score_context_recall : String → String → String → ChatOpenAI → ℚ)
    (user_input retrieved_contexts reference_answer eval_framework llm : String) :
    List String × Except String ℚ :=
  let warns := frameworkCheck eval_framework
  match get_llm env llm with
  | .error e => (warns, .error e)
  | .ok llm_obj =>
      (warns, .ok (round4 (score_context_recall user_input retrieved_contexts reference_answer llm_obj)))

/-- Embedding of the `calculate_answer_correctness` tool. -/
def calculate_answer_correctness (env : String → Option String)
    (score_answer_correctness : String → String → String → ChatOpenAI → OpenAIEmbeddings → ℚ)
    (user_input response reference_answer eval_framework llm embedding_model : String) :
    List String × Except String ℚ :=
  let warns := frameworkCheck eval_framework
  match get_llm env llm with
  | .error e => (warns, .error e)
  | .ok llm_obj =>
      match get_embedding_model env embedding_model with
      | (w, .error e) => (warns ++ w, .error e)
      | (w, .ok embedding_obj) =>
          (warns ++ w,
            .ok (round4 (score_answer_correctness user_input response reference_answer llm_obj embedding_obj)))

end MetricServer

/-! Provider Resolver (`src/my_llms.py`).

The filesystem is abstracted as `fs : String → Option String` mapping a path
to the contents of the file there (`none` = no such file), the process
environment as `env : String → Option String`. -/

namespace Resolver

/-- Fixed secrets directory, `API_SECRET_DIR`. -/
def API_SECRET_DIR : String := "/run/secrets"

/-- Supported providers, in scan order. -/
def SUPPORTED_PROVIDERS : List String :=
  ["openai", "azure", "lite", "custom", "anthropic"]

/-- Keys of `EMBEDDING_MODEL_DEFAULTS` (anthropic has no embedding support). -/
def EMBEDDING_PROVIDERS : List String :=
  ["openai", "azure", "lite", "custom"]

/-- The Docker-secret path checked for a provider:
`os.path.join(API_SECRET_DIR, f"{provider}_api_key")`. -/
def secretPath (provider : String) : String :=
  API_SECRET_DIR ++ "/" ++ provider ++ "_api_key"

/-- The provider-specific environment variable name,
`f"{provider.upper()}_API_KEY"`. -/
def envVarName (provider : String) : String :=
  pyUpper provider ++ "_API_KEY"

/-- Whether a provider has a credential in scope: its secret file exists or
its environment variable is truthy (the loop condition of
`detect_provider`). -/
def providerHasCredential (fs env : String → Option String) (p : String) : Bool :=
  (fs (secretPath p)).isSome || (pyTruthy (env (envVarName p))).isSome

/-- First provider in the list holding a credential, if any. -/
def firstCredentialedProvider (fs env : String → Option String) :
    List String → Option String
  | [] => none
  | p :: ps =>
    if providerHasCredential fs env p then some p
    else firstCredentialedProvider fs env ps

/-- Embedding of `detect_provider`: an explicit truthy `LLM_PROVIDER` naming
a supported provider wins; otherwise the first provider with a credential;
otherwise `"openai"`. -/
def detect_provider (fs env : String → Option String) : String :=
  match pyTruthy (env "LLM_PROVIDER") with
  | some p =>
    if pyLower p ∈ SUPPORTED_PROVIDERS then pyLower p
    else (firstCredentialedProvider fs env SUPPORTED_PROVIDERS).getD "openai"
  | none => (firstCredentialedProvider fs env SUPPORTED_PROVIDERS).getD "openai"

/-- Error message of `load_api_key` when no credential is found. -/
def noKeyMsg (provider : String) : String :=
  "No API key found for provider '" ++ provider ++ "'. Checked secret '" ++
    secretPath provider ++ "' and env var '" ++ envVarName provider ++ "'"

/-- Embedding of `load_api_key`: the stripped secret-file contents when the
file exists; else the provider environment variable when truthy; else, for
`"openai"` only, a truthy generic `API_KEY`; else `EnvironmentError`. -/
def load_api_key (fs env : String → Option String) (provider : String) :
    Except String String :=
  match fs (secretPath provider) with
  | some contents => .ok (pyStrip contents)
  | none =>
    match pyTruthy (env (envVarName provider)) with
    | some key => .ok key
    | none =>
      if provider = "openai" then
        match pyTruthy (env "API_KEY") with
        | some key => .ok key
        | none => .error (noKeyMsg provider)
      else .error (noKeyMsg provider)

/-- Embedding of `detect_embedding_provider`: an explicit truthy
`EMBEDDING_PROVIDER` naming a key of `EMBEDDING_MODEL_DEFAULTS` wins;
otherwise `"openai"`. -/
def detect_embedding_provider (env : String → Option String) : String :=
  match pyTruthy (env "EMBEDDING_PROVIDER") with
  | some p => if pyLower p ∈ EMBEDDING_PROVIDERS then pyLower p else "openai"
  | none => "openai"

end Resolver

/-! Theorems.  Shared helper lemmas first, then one theorem per claim of the
specification, each with its witness or counterexample. -/

theorem roundHalfEven_nonneg {x : ℚ} (hx : 0 ≤ x) : 0 ≤ roundHalfEven x := by
  have hf : 0 ≤ ⌊x⌋ := Int.floor_nonneg.mpr hx
  unfold roundHalfEven
  dsimp only
  split
  · exact hf
  · split
    · omega
    · split <;> omega

theorem roundHalfEven_le {x : ℚ} {n : ℤ} (h : x ≤ n) : roundHalfEven x ≤ n := by
  have hf : ⌊x⌋ ≤ n := by
    have := Int.floor_mono h
    simpa using this
  have hfl : (⌊x⌋ : ℚ) ≤ x := Int.floor_le x
  unfold roundHalfEven
  dsimp only
  split
  · exact hf
  · rename_i h1
    push_neg at h1
    have hlt : ⌊x⌋ < n := by
      by_contra hc
      push_neg at hc
      have : (n : ℚ) ≤ (⌊x⌋ : ℚ) := by exact_mod_cast hc
      linarith
    split
    · omega
    · split <;> omega

theorem round4_nonneg {x : ℚ} (hx : 0 ≤ x) : 0 ≤ round4 x := by
  have h := roundHalfEven_nonneg (x := x * 10000) (by positivity)
  have h0 : (0 : ℚ) ≤ (roundHalfEven (x * 10000) : ℚ) := by exact_mod_cast h
  unfold round4
  positivity

theorem round4_le_one {x : ℚ} (hx : x ≤ 1) : round4 x ≤ 1 := by
  have h1 : x * 10000 ≤ ((10000 : ℤ) : ℚ) := by push_cast; linarith
  have h2 : roundHalfEven (x * 10000) ≤ 10000 := roundHalfEven_le h1
  unfold round4
  rw [div_le_one (by norm_num)]
  exact_mod_cast h2

/-- Every rounded score is an integer multiple of `1/10000`: four decimal
digits exactly. -/
theorem round4_four_decimals (x : ℚ) : ∃ k : ℤ, round4 x = (k : ℚ) / 10000 :=
  ⟨roundHalfEven (x * 10000), rfl⟩

/-- C3 (amended): for every probe outcome and every ordered candidate list,
`find_working_mcp_url` returns the first URL whose probed address — the URL
with every occurrence of `"8000/mcp"` replaced by `"8000"`, which strips the
RPC path suffix for the shipped port-8000 candidates — answers with a status
code below 500, skipping candidates whose probe raises or answers with a
server error; it raises `RuntimeError` (embedded as `none`), halting
orchestrator construction, exactly when no candidate is alive. -/
theorem find_working_mcp_url_first_alive (probe : String → Option Nat)
    (urls : List String) :
    find_working_mcp_url probe urls = urls.find? (alive probe) ∧
    (find_working_mcp_url probe urls = none ↔ ∀ u ∈ urls, alive probe u = false) := by
  have h : find_working_mcp_url probe urls = urls.find? (alive probe) := by
    induction urls with
    | nil => rfl
    | cons u rest ih =>
      cases h : probe (probeAddress u) with
      | none => simp [find_working_mcp_url, List.find?, alive, h, ih]
      | some code =>
        by_cases hc : code < 500 <;>
          simp [find_working_mcp_url, List.find?, alive, h, hc, ih]
  refine ⟨h, ?_⟩
  rw [h, List.find?_eq_none]
  simp [Bool.not_eq_true]

/-- C3 counterexample: for the candidate list `["http://h:9000/mcp"]` and a
network that answers 200 on the suffix-stripped address `"http://h:9000"` but
raises on every other address, the probe of the URL with its RPC path suffix
removed completes with status 200 < 500, so the claim requires the URL to be
returned; yet `find_working_mcp_url` raises, because the code only rewrites
the literal `"8000/mcp"` and therefore probes the unmodified URL. -/
theorem find_working_mcp_url_not_suffix_strip :
    specAlive (fun s => if s = "http://h:9000" then some 200 else none)
        "http://h:9000/mcp" = true ∧
    find_working_mcp_url (fun s => if s = "http://h:9000" then some 200 else none)
        ["http://h:9000/mcp"] = none := by
  constructor
  · decide
  · simp [find_working_mcp_url, probeAddress, pyReplace, pyReplaceAux, listStartsWith]

theorem lookup_isSome_iff_mem_keys {β : Type} (l : List (String × β)) (k : String) :
    (l.lookup k).isSome ↔ k ∈ l.map Prod.fst := by
  induction l with
  | nil => simp [List.lookup]
  | cons p ps ih =>
    obtain ⟨a, b⟩ := p
    by_cases h : k = a
    · subst h
      simp [List.lookup]
    · have hb : (k == a) = false := beq_false_of_ne h
      simp only [List.lookup, hb, List.map_cons, List.mem_cons, ih]
      simp [h]

/-- C1: every evaluation request derives exactly five sub-tool jobs; their
tool names, argument field sets, and field bindings are exactly those of the
specification's table (with `strictness` bound to the integer `3`). -/
theorem workflow_jobs_match_spec_table (r : EvalRequest) :
    (jobs r).map Prod.fst =
      ["calculate_faithfulness", "calculate_answer_relevancy",
       "calculate_context_precision", "calculate_context_recall",
       "calculate_answer_correctness"] ∧
    (jobs r).lookup "calculate_faithfulness" =
      some [("user_input", .str r.user_input), ("response", .str r.response),
            ("retrieved_contexts", .str r.retrieved_contexts),
            ("eval_framework", .str r.eval_framework), ("llm", .str r.llm)] ∧
    (jobs r).lookup "calculate_answer_relevancy" =
      some [("user_input", .str r.user_input), ("response", .str r.response),
            ("eval_framework", .str r.eval_framework), ("llm", .str r.llm),
            ("embedding_model", .str r.embedding_model), ("strictness", .int 3)] ∧
    (jobs r).lookup "calculate_context_precision" =
      some [("user_input", .str r.user_input), ("response", .str r.response),
            ("retrieved_contexts", .str r.retrieved_contexts),
            ("eval_framework", .str r.eval_framework), ("llm", .str r.llm)] ∧
    (jobs r).lookup "calculate_context_recall" =
      some [("user_input", .str r.user_input),
            ("retrieved_contexts", .str r.retrieved_contexts),
            ("reference_answer", .str r.reference_answer),
            ("eval_framework", .str r.eval_framework), ("llm", .str r.llm)] ∧
    (jobs r).lookup "calculate_answer_correctness" =
      some [("user_input", .str r.user_input), ("response", .str r.response),
            ("reference_answer", .str r.reference_answer),
            ("eval_framework", .str r.eval_framework), ("llm", .str r.llm),
            ("embedding_model", .str r.embedding_model)] := by
  refine ⟨rfl, ?_, ?_, ?_, ?_, ?_⟩ <;> simp [jobs, List.lookup]

/-- C2: for every remote-call outcome and every evaluation request, the
aggregated mapping returned by `run_jobs` has exactly the five metric tool
names as keys and no other key. -/
theorem aggregated_result_keys_exact {α : Type}
    (call : String → List (String × PyVal) → α) (r : EvalRequest) :
    (runJobs call r).map Prod.fst =
      ["calculate_faithfulness", "calculate_answer_relevancy",
       "calculate_context_precision", "calculate_context_recall",
       "calculate_answer_correctness"] ∧
    ∀ k : String, ((runJobs call r).lookup k).isSome ↔
      k ∈ ["calculate_faithfulness", "calculate_answer_relevancy",
           "calculate_context_precision", "calculate_context_recall",
           "calculate_answer_correctness"] := by
  refine ⟨rfl, fun k => ?_⟩
  have hkeys : (runJobs call r).map Prod.fst =
      ["calculate_faithfulness", "calculate_answer_relevancy",
       "calculate_context_precision", "calculate_context_recall",
       "calculate_answer_correctness"] := rfl
  rw [lookup_isSome_iff_mem_keys, hkeys]

/-- C9: in the aggregated mapping, each metric key is bound to the result of
its own sub-call — the abstract remote call applied to that tool's name and
that tool's argument mapping. -/
theorem aggregated_result_binds_own_call {α : Type}
    (call : String → List (String × PyVal) → α) (r : EvalRequest) :
    (runJobs call r).lookup "calculate_faithfulness" =
      some (call "calculate_faithfulness"
        [("user_input", .str r.user_input), ("response", .str r.response),
         ("retrieved_contexts", .str r.retrieved_contexts),
         ("eval_framework", .str r.eval_framework), ("llm", .str r.llm)]) ∧
    (runJobs call r).lookup "calculate_answer_relevancy" =
      some (call "calculate_answer_relevancy"
        [("user_input", .str r.user_input), ("response", .str r.response),
         ("eval_framework", .str r.eval_framework), ("llm", .str r.llm),
         ("embedding_model", .str r.embedding_model), ("strictness", .int 3)]) ∧
    (runJobs call r).lookup "calculate_context_precision" =
      some (call "calculate_context_precision"
        [("user_input", .str r.user_input), ("response", .str r.response),
         ("retrieved_contexts", .str r.retrieved_contexts),
         ("eval_framework", .str r.eval_framework), ("llm", .str r.llm)]) ∧
    (runJobs call r).lookup "calculate_context_recall" =
      some (call "calculate_context_recall"
        [("user_input", .str r.user_input),
         ("retrieved_contexts", .str r.retrieved_contexts),
         ("reference_answer", .str r.reference_answer),
         ("eval_framework", .str r.eval_framework), ("llm", .str r.llm)]) ∧
    (runJobs call r).lookup "calculate_answer_correctness" =
      some (call "calculate_answer_correctness"
        [("user_input", .str r.user_input), ("response", .str r.response),
         ("reference_answer", .str r.reference_answer),
         ("eval_framework", .str r.eval_framework), ("llm", .str r.llm),
         ("embedding_model", .str r.embedding_model)]) := by
  refine ⟨?_, ?_, ?_, ?_, ?_⟩ <;> simp [runJobs, jobs, List.lookup]

namespace MetricServer

theorem get_llm_ok (env : String → Option String) (k llm_ident : String)
    (hkey : pyTruthy (env "OPENAI_API_KEY") = some k)
    (hllm : pyContains llm_ident "gpt" = true) :
    get_llm env llm_ident = .ok ⟨llm_ident, 0, 1024⟩ := by
  unfold get_llm
  rw [hkey]
  simp [hllm]

theorem get_embedding_model_isOk (env : String → Option String) (k name : String)
    (hkey : pyTruthy (env "OPENAI_API_KEY") = some k) :
    ∃ w e, get_embedding_model env name = (w, .ok e) := by
  unfold get_embedding_model
  rw [hkey]
  by_cases h : name = "text-embedding-3-small" <;> simp [h]

theorem get_embedding_model_default (env : String → Option String) (k : String)
    (hkey : pyTruthy (env "OPENAI_API_KEY") = some k) :
    get_embedding_model env "text-embedding-3-small" =
      ([], .ok ⟨"text-embedding-3-small"⟩) := by
  unfold get_embedding_model
  rw [hkey]
  simp

/-- C8: for every embedding model name other than the single supported model,
`get_embedding_model` does not reject the request: it emits the non-fatal
warning and constructs the embedding client with the single supported default
model in place of the given name. -/
theorem embedding_model_coerced_with_warning
    (env : String → Option String) (k model_name : String)
    (hkey : pyTruthy (env "OPENAI_API_KEY") = some k)
    (hname : model_name ≠ "text-embedding-3-small") :
    get_embedding_model env model_name =
      ([embeddingDefaultWarning], .ok ⟨"text-embedding-3-small"⟩) := by
  unfold get_embedding_model
  rw [hkey]
  simp [hname]

/-- C8 witness: the unsupported name `"text-embedding-004"`, with
`OPENAI_API_KEY` set, is coerced to the default with the warning. -/
theorem embedding_model_coerced_witness :
    get_embedding_model
        (fun v => if v = "OPENAI_API_KEY" then some "sk-test" else none)
        "text-embedding-004" =
      ([embeddingDefaultWarning], .ok ⟨"text-embedding-3-small"⟩) :=
  embedding_model_coerced_with_warning
    (fun v => if v = "OPENAI_API_KEY" then some "sk-test" else none)
    "sk-test" "text-embedding-004" (by decide) (by decide)

/-- C4: for every metric tool endpoint and every request whose
`eval_framework` is not a supported framework, the call does not fail because
of the framework: the non-fatal warning is among the emitted warnings, and
the computed result is exactly the one the endpoint returns for the supported
framework `"ragas"`, a successfully computed score. -/
theorem unsupported_framework_warns_and_proceeds
    (env : String → Option String) (k : String)
    (sf : String → String → String → ChatOpenAI → ℚ)
    (sar : String → String → ChatOpenAI → OpenAIEmbeddings → Int → ℚ)
    (scp : String → String → String → ChatOpenAI → ℚ)
    (scr : String → String → String → ChatOpenAI → ℚ)
    (sac : String → String → String → ChatOpenAI → OpenAIEmbeddings → ℚ)
    (u resp ctx ref ef llm emb : String) (strict : Int)
    (hkey : pyTruthy (env "OPENAI_API_KEY") = some k)
    (hllm : pyContains llm "gpt" = true)
    (hef : ef ∉ SUPPORTED_EVAL_FRAMEWORKS) :
    (frameworkWarning ef ∈ (calculate_faithfulness env sf u resp ctx ef llm).1 ∧
      (calculate_faithfulness env sf u resp ctx ef llm).2 =
        (calculate_faithfulness env sf u resp ctx "ragas" llm).2 ∧
      ∃ q : ℚ, (calculate_faithfulness env sf u resp ctx ef llm).2 = .ok q) ∧
    (frameworkWarning ef ∈ (calculate_answer_relevancy env sar u resp ef llm emb strict).1 ∧
      (calculate_answer_relevancy env sar u resp ef llm emb strict).2 =
        (calculate_answer_relevancy env sar u resp "ragas" llm emb strict).2 ∧
      ∃ q : ℚ, (calculate_answer_relevancy env sar u resp ef llm emb strict).2 = .ok q) ∧
    (frameworkWarning ef ∈ (calculate_context_precision env scp u resp ctx ef llm).1 ∧
      (calculate_context_precision env scp u resp ctx ef llm).2 =
        (calculate_context_precision env scp u resp ctx "ragas" llm).2 ∧
      ∃ q : ℚ, (calculate_context_precision env scp u resp ctx ef llm).2 = .ok q) ∧
    (frameworkWarning ef ∈ (calculate_context_recall env scr u ctx ref ef llm).1 ∧
      (calculate_context_recall env scr u ctx ref ef llm).2 =
        (calculate_context_recall env scr u ctx ref "ragas" llm).2 ∧
      ∃ q : ℚ, (calculate_context_recall env scr u ctx ref ef llm).2 = .ok q) ∧
    (frameworkWarning ef ∈ (calculate_answer_correctness env sac u resp ref ef llm emb).1 ∧
      (calculate_answer_correctness env sac u resp ref ef llm emb).2 =
        (calculate_answer_correctness env sac u resp ref "ragas" llm emb).2 ∧
      ∃ q : ℚ, (calculate_answer_correctness env sac u resp ref ef llm emb).2 = .ok q) := by
  have hgl : get_llm env llm = .ok ⟨llm, 0, 1024⟩ := get_llm_ok env k llm hkey hllm
  obtain ⟨w, e, hge⟩ := get_embedding_model_isOk env k emb hkey
  have hfw : frameworkCheck ef = [frameworkWarning ef] := by
    simp [frameworkCheck, hef]
  refine ⟨?_, ?_, ?_, ?_, ?_⟩ <;>
    simp [calculate_faithfulness, calculate_answer_relevancy,
      calculate_context_precision, calculate_context_recall,
      calculate_answer_correctness, hgl, hge, hfw]

/-- C4 witness: with the framework selector `"crewai"`, the key set, and a
`gpt` judge, the faithfulness endpoint emits the framework warning. -/
theorem unsupported_framework_witness :
    frameworkWarning "crewai" ∈
      (calculate_faithfulness
        (fun v => if v = "OPENAI_API_KEY" then some "sk-test" else none)
        (fun _ _ _ _ => 1/2) "q" "a" "c" "crewai" "gpt-4o-mini").1 :=
  (unsupported_framework_warns_and_proceeds
    (fun v => if v = "OPENAI_API_KEY" then some "sk-test" else none) "sk-test"
    (fun _ _ _ _ => 1/2) (fun _ _ _ _ _ => 1/2) (fun _ _ _ _ => 1/2)
    (fun _ _ _ _ => 1/2) (fun _ _ _ _ _ => 1/2)
    "q" "a" "c" "r" "crewai" "gpt-4o-mini" "text-embedding-3-small" 3
    (by decide) (by decide) (by decide)).1.1

/-- C5: for each of the five metric tool endpoints, given a valid request
(key set, a `gpt` judge, the supported embedding model) and scoring functions
whose values lie in `[0, 1]` — the scoring is delegated to the external
evaluation library, modelled from the spec — the returned value is the
library's score rounded to exactly 4 decimal places, and lies in
`[0.0, 1.0]`. -/
theorem scores_rounded_in_unit_interval
    (env : String → Option String) (k : String)
    (sf : String → String → String → ChatOpenAI → ℚ)
    (sar : String → String → ChatOpenAI → OpenAIEmbeddings → Int → ℚ)
    (scp : String → String → String → ChatOpenAI → ℚ)
    (scr : String → String → String → ChatOpenAI → ℚ)
    (sac : String → String → String → ChatOpenAI → OpenAIEmbeddings → ℚ)
    (u resp ctx ref ef llm : String) (strict : Int)
    (hkey : pyTruthy (env "OPENAI_API_KEY") = some k)
    (hllm : pyContains llm "gpt" = true)
    (hsf : ∀ a b c d, SpecScore (sf a b c d))
    (hsar : ∀ a b d e n, SpecScore (sar a b d e n))
    (hscp : ∀ a b c d, SpecScore (scp a b c d))
    (hscr : ∀ a b c d, SpecScore (scr a b c d))
    (hsac : ∀ a b c d e, SpecScore (sac a b c d e)) :
    (∃ w q, calculate_faithfulness env sf u resp ctx ef llm = (w, .ok q) ∧
      q = round4 (sf u resp ctx ⟨llm, 0, 1024⟩) ∧
      0 ≤ q ∧ q ≤ 1 ∧ ∃ z : ℤ, q = (z : ℚ) / 10000) ∧
    (∃ w q, calculate_answer_relevancy env sar u resp ef llm
        "text-embedding-3-small" strict = (w, .ok q) ∧
      q = round4 (sar u resp ⟨llm, 0, 1024⟩ ⟨"text-embedding-3-small"⟩ strict) ∧
      0 ≤ q ∧ q ≤ 1 ∧ ∃ z : ℤ, q = (z : ℚ) / 10000) ∧
    (∃ w q, calculate_context_precision env scp u resp ctx ef llm = (w, .ok q) ∧
      q = round4 (scp u resp ctx ⟨llm, 0, 1024⟩) ∧
      0 ≤ q ∧ q ≤ 1 ∧ ∃ z : ℤ, q = (z : ℚ) / 10000) ∧
    (∃ w q, calculate_context_recall env scr u ctx ref ef llm = (w, .ok q) ∧
      q = round4 (scr u ctx ref ⟨llm, 0, 1024⟩) ∧
      0 ≤ q ∧ q ≤ 1 ∧ ∃ z : ℤ, q = (z : ℚ) / 10000) ∧
    (∃ w q, calculate_answer_correctness env sac u resp ref ef llm
        "text-embedding-3-small" = (w, .ok q) ∧
      q = round4 (sac u resp ref ⟨llm, 0, 1024⟩ ⟨"text-embedding-3-small"⟩) ∧
      0 ≤ q ∧ q ≤ 1 ∧ ∃ z : ℤ, q = (z : ℚ) / 10000) := by
  have hgl : get_llm env llm = .ok ⟨llm, 0, 1024⟩ := get_llm_ok env k llm hkey hllm
  have hge := get_embedding_model_default env k hkey
  refine ⟨?_, ?_, ?_, ?_, ?_⟩
  · refine ⟨frameworkCheck ef, round4 (sf u resp ctx ⟨llm, 0, 1024⟩), ?_, rfl,
      round4_nonneg (hsf u resp ctx ⟨llm, 0, 1024⟩).1,
      round4_le_one (hsf u resp ctx ⟨llm, 0, 1024⟩).2,
      round4_four_decimals _⟩
    simp [calculate_faithfulness, hgl]
  · refine ⟨frameworkCheck ef,
      round4 (sar u resp ⟨llm, 0, 1024⟩ ⟨"text-embedding-3-small"⟩ strict), ?_, rfl,
      round4_nonneg (hsar u resp ⟨llm, 0, 1024⟩ ⟨"text-embedding-3-small"⟩ strict).1,
      round4_le_one (hsar u resp ⟨llm, 0, 1024⟩ ⟨"text-embedding-3-small"⟩ strict).2,
      round4_four_decimals _⟩
    simp [calculate_answer_relevancy, hgl, hge]
  · refine ⟨frameworkCheck ef, round4 (scp u resp ctx ⟨llm, 0, 1024⟩), ?_, rfl,
      round4_nonneg (hscp u resp ctx ⟨llm, 0, 1024⟩).1,
      round4_le_one (hscp u resp ctx ⟨llm, 0, 1024⟩).2,
      round4_four_decimals _⟩
    simp [calculate_context_precision, hgl]
  · refine ⟨frameworkCheck ef, round4 (scr u ctx ref ⟨llm, 0, 1024⟩), ?_, rfl,
      round4_nonneg (hscr u ctx ref ⟨llm, 0, 1024⟩).1,
      round4_le_one (hscr u ctx ref ⟨llm, 0, 1024⟩).2,
      round4_four_decimals _⟩
    simp [calculate_context_recall, hgl]
  · refine ⟨frameworkCheck ef,
      round4 (sac u resp ref ⟨llm, 0, 1024⟩ ⟨"text-embedding-3-small"⟩), ?_, rfl,
      round4_nonneg (hsac u resp ref ⟨llm, 0, 1024⟩ ⟨"text-embedding-3-small"⟩).1,
      round4_le_one (hsac u resp ref ⟨llm, 0, 1024⟩ ⟨"text-embedding-3-small"⟩).2,
      round4_four_decimals _⟩
    simp [calculate_answer_correctness, hgl, hge]

/-- C5 witness: with constant scoring functions valued `1/3` and a valid
request, the faithfulness endpoint returns the rounded score in the unit
interval. -/
theorem scores_rounded_witness :
    ∃ w q, calculate_faithfulness
        (fun v => if v = "OPENAI_API_KEY" then some "sk-test" else none)
        (fun _ _ _ _ => 1/3) "q" "a" "c" "ragas" "gpt-4o-mini" = (w, .ok q) ∧
      q = round4 ((fun _ _ _ _ => (1 : ℚ)/3) "q" "a" "c"
        (⟨"gpt-4o-mini", 0, 1024⟩ : ChatOpenAI)) ∧
      0 ≤ q ∧ q ≤ 1 ∧ ∃ z : ℤ, q = (z : ℚ) / 10000 :=
  (scores_rounded_in_unit_interval
    (fun v => if v = "OPENAI_API_KEY" then some "sk-test" else none) "sk-test"
    (fun _ _ _ _ => 1/3) (fun _ _ _ _ _ => 1/3) (fun _ _ _ _ => 1/3)
    (fun _ _ _ _ => 1/3) (fun _ _ _ _ _ => 1/3)
    "q" "a" "c" "r" "ragas" "gpt-4o-mini" 3
    (by decide) (by decide)
    (fun _ _ _ _ => ⟨by norm_num, by norm_num⟩)
    (fun _ _ _ _ _ => ⟨by norm_num, by norm_num⟩)
    (fun _ _ _ _ => ⟨by norm_num, by norm_num⟩)
    (fun _ _ _ _ => ⟨by norm_num, by norm_num⟩)
    (fun _ _ _ _ _ => ⟨by norm_num, by norm_num⟩)).1

end MetricServer

namespace Resolver

/-- C6 (amended): `load_api_key` returns the whitespace-stripped contents of
the provider's secret file under the fixed secrets directory when that file
exists; otherwise the value of the provider-specific `<PROVIDER>_API_KEY`
environment variable when set and non-empty; otherwise, for the default
provider `openai` only, the value of the generic `API_KEY` environment
variable when set and non-empty; and raises a configuration error naming the
checked secret file and environment variable when none of these yields a
credential. -/
theorem load_api_key_priority (fs env : String → Option String)
    (provider : String) :
    (∀ c, fs (secretPath provider) = some c →
      load_api_key fs env provider = .ok (pyStrip c)) ∧
    (∀ key, fs (secretPath provider) = none →
      pyTruthy (env (envVarName provider)) = some key →
      load_api_key fs env provider = .ok key) ∧
    (∀ key, fs (secretPath provider) = none →
      pyTruthy (env (envVarName provider)) = none →
      provider = "openai" → pyTruthy (env "API_KEY") = some key →
      load_api_key fs env provider = .ok key) ∧
    (fs (secretPath provider) = none →
      pyTruthy (env (envVarName provider)) = none →
      (provider = "openai" → pyTruthy (env "API_KEY") = none) →
      load_api_key fs env provider = .error (noKeyMsg provider)) := by
  refine ⟨?_, ?_, ?_, ?_⟩
  · intro c hc
    simp [load_api_key, hc]
  · intro key h0 hk
    simp [load_api_key, h0, hk]
  · intro key h0 hk hp hak
    subst hp
    simp [load_api_key, h0, hk, hak]
  · intro h0 hk hak
    by_cases hp : provider = "openai"
    · subst hp
      simp [load_api_key, h0, hk, hak rfl]
    · simp [load_api_key, h0, hk, hp]

/-- C6 witness: with the openai secret file holding `" key \n"`, the loaded
key is the stripped contents `"key"`. -/
theorem load_api_key_priority_witness :
    load_api_key
        (fun p => if p = "/run/secrets/openai_api_key" then some " key \n" else none)
        (fun _ => none) "openai" = .ok "key" := by
  have h := (load_api_key_priority
    (fun p => if p = "/run/secrets/openai_api_key" then some " key \n" else none)
    (fun _ => none) "openai").1 " key \n" (by decide)
  rw [show pyStrip " key \n" = "key" by decide] at h
  exact h

/-- C6 counterexample: the claim as stated fails twice on the code.  With the
openai secret file holding `" key \n"`, `load_api_key` returns the stripped
string `"key"`, not the file's contents; and with `ANTHROPIC_API_KEY` set to
the empty string (and no secret file), the claim says the variable's value is
returned, yet the code raises the configuration error. -/
theorem load_api_key_claim_false :
    ((fun p => if p = "/run/secrets/openai_api_key" then some " key \n" else none)
        "/run/secrets/openai_api_key" = some " key \n" ∧
      load_api_key
        (fun p => if p = "/run/secrets/openai_api_key" then some " key \n" else none)
        (fun _ => none) "openai" = .ok "key" ∧
      (" key \n" : String) ≠ "key") ∧
    ((fun v => if v = "ANTHROPIC_API_KEY" then some "" else none)
        "ANTHROPIC_API_KEY" = some "" ∧
      load_api_key (fun _ => none)
        (fun v => if v = "ANTHROPIC_API_KEY" then some "" else none)
        "anthropic" = .error (noKeyMsg "anthropic")) := by
  exact ⟨⟨rfl, by rfl, by decide⟩, ⟨rfl, by rfl⟩⟩

/-- C7 (amended): for every environment in which `EMBEDDING_PROVIDER` is
unset, embedding-provider resolution yields `openai` unconditionally; for
every environment in which `LLM_PROVIDER` is unset, LLM-provider resolution
yields `openai` provided additionally that no supported provider holds a
credential (secret file or non-empty provider-specific environment
variable).  Each half carries exactly its own hypotheses. -/
theorem provider_resolution_defaults (fs env : String → Option String) :
    (env "EMBEDDING_PROVIDER" = none → detect_embedding_provider env = "openai") ∧
    (env "LLM_PROVIDER" = none →
      (∀ p ∈ SUPPORTED_PROVIDERS, providerHasCredential fs env p = false) →
      detect_provider fs env = "openai") := by
  constructor
  · intro hemb
    simp [detect_embedding_provider, hemb, pyTruthy]
  · intro hllm hcred
    have h1 : firstCredentialedProvider fs env
        ["openai", "azure", "lite", "custom", "anthropic"] = none := by
      have ho := hcred "openai" (by decide)
      have ha := hcred "azure" (by decide)
      have hl := hcred "lite" (by decide)
      have hc := hcred "custom" (by decide)
      have hn := hcred "anthropic" (by decide)
      simp [firstCredentialedProvider, ho, ha, hl, hc, hn]
    simp [detect_provider, hllm, pyTruthy, SUPPORTED_PROVIDERS, h1]

/-- C7 witness: the embedding default applied in an environment that does
hold a credential (`OPENAI_API_KEY` set), and the LLM default applied in the
empty environment with no secret files. -/
theorem provider_resolution_defaults_witness :
    detect_embedding_provider
      (fun v => if v = "OPENAI_API_KEY" then some "sk-test" else none) = "openai" ∧
    detect_provider (fun _ => none) (fun _ => none) = "openai" :=
  ⟨(provider_resolution_defaults (fun _ => none)
      (fun v => if v = "OPENAI_API_KEY" then some "sk-test" else none)).1 rfl,
   (provider_resolution_defaults (fun _ => none) (fun _ => none)).2 rfl (by decide)⟩

/-- C7 counterexample: with `LLM_PROVIDER` unset but `ANTHROPIC_API_KEY` set
to a non-empty value and no secret files, `detect_provider` scans the
provider list for credentials and returns `"anthropic"`, not the documented
default `"openai"`. -/
theorem detect_provider_scans_credentials :
    (fun v => if v = "ANTHROPIC_API_KEY" then some "x" else none)
        "LLM_PROVIDER" = none ∧
    detect_provider (fun _ => none)
        (fun v => if v = "ANTHROPIC_API_KEY" then some "x" else none) =
      "anthropic" ∧
    ("anthropic" : String) ≠ "openai" := by
  exact ⟨rfl, by decide, by decide⟩

end Resolver

end RagasMcp
